import Mathlib

/-!
Verification of the websocketification client (src/src/WebsocketificationClient.js
and src/src/Response.js, latest revision) against its natural-language
specification.  The client state, the inbound-frame handler, the response
dispatcher, the reconnection policy, the heartbeat loop, the fetch
connection check and the close operation are embedded shallowly below;
listener callbacks are represented by opaque tokens of types to be chosen by
the statements, and observable behaviour (sends, resolutions, rejections,
scheduled timers) is returned as explicit effect values.
-/

namespace Websocketification

/-- Mirrors the JavaScript String.startsWith test on frames represented as
character lists: the second argument is the sought leading segment. -/
def startsWithChars : List Char → List Char → Bool
  | _, [] => true
  | [], _ :: _ => false
  | c :: cs, p :: ps => c == p && startsWithChars cs ps

/-- The reserved command lead token, source constant CMD_PREFIX = the dollar sign. -/
def cmdLead : List Char := ['$']

/-- Source constant CMD_PING. -/
def cmdPing : List Char := ['$', 'P', 'I', 'N', 'G']

/-- Source constant CMD_PONG. -/
def cmdPong : List Char := ['$', 'P', 'O', 'N', 'G']

/-- Source constant JSON_OBJECT_PREFIX, the single opening-brace character. -/
def jsonLead : List Char := ['\x7b']

/-- The four WebSocket readiness states (the transport's readyState). The
state the browser API calls OPEN is rendered as opened. -/
inductive ReadyState where
  | connecting
  | opened
  | closing
  | closed
  deriving DecidableEq

/-- The response envelope of src/src/Response.js.  A JS field that is absent
or empty is rendered as the empty string for id and as 0 for status, matching
the truthiness test of isValid. -/
structure Response where
  id : String
  status : Int
  body : String
  deriving DecidableEq

/-- Source Response.json: returns the body. -/
def Response.json (r : Response) : String := r.body

/-- Source Response.isSuccess: status at least 200 and below 300, or equal to 304. -/
def Response.isSuccess (r : Response) : Bool :=
  (200 ≤ r.status && r.status < 300) || r.status == 304

/-- Source Response.isValid: the truthiness conjunction of id and status. -/
def Response.isValid (r : Response) : Bool :=
  r.id != "" && r.status != 0

/-- The reasons a fetch promise can be rejected on the connection-check path. -/
inductive FetchErrorKind where
  /-- The socket is closing or closed and the last closure was abnormal. -/
  | connectionAbnormal
  /-- The transparent reconnect attempt itself was rejected. -/
  | reconnectFailed
  /-- The reconnect resolved but the socket was not open (the defensive
  throw inside the then-branch, routed to the catch). -/
  | socketNotOpenAfterConnect
  deriving DecidableEq

/-- Observable effects of the client.  Waiter callbacks are tokens of type
alpha, broadcast listeners tokens of type beta. -/
inductive Effect (α β : Type) where
  /-- A pending waiter's resolve handle called with the response. -/
  | resolvedWaiter (w : α) (r : Response)
  /-- A pending waiter's reject handle called with the response. -/
  | rejectedWaiter (w : α) (r : Response)
  /-- A broadcast listener invoked as listener(null, response). -/
  | broadcastOk (g : β) (r : Response)
  /-- A broadcast listener invoked as listener(response). -/
  | broadcastErr (g : β) (r : Response)
  /-- The unhandled-response listener invoked with the response. -/
  | unhandledDelivered (r : Response)
  /-- A valid envelope matched no waiter, no subscription and no sink. -/
  | droppedUnrouted
  /-- A brace-led frame that failed to parse; logged and dropped. -/
  | droppedUnparsable
  /-- A parsed envelope missing a truthy id or status; logged and dropped. -/
  | droppedInvalid
  /-- A frame consumed without any visible reaction. -/
  | ignoredFrame
  /-- ws.send of a literal command frame. -/
  | sentFrame (payload : List Char)
  /-- ws.send of the serialized request with the given correlation id. -/
  | sentRequest (reqId : String)
  /-- A pending waiter stored under the given correlation id. -/
  | registeredWaiter (reqId : String) (w : α)
  /-- A call of connect() was started. -/
  | startedConnect
  /-- The fetch promise rejected for the given reason. -/
  | fetchRejected (k : FetchErrorKind)
  /-- The connection-check poll re-armed with the given waiting time. -/
  | recheckScheduled (time : Int)
  /-- ws.close issued with the given code and reason. -/
  | wsCloseIssued (code : Int) (reason : List Char)
  /-- A delayed reconnect scheduled after the given waiting time. -/
  | scheduledRetryConnect (delay : Int)
  /-- The registered close listener invoked with the close event. -/
  | closeListenerInvoked
  /-- The promise of the enclosing connect() call rejected. -/
  | connectPromiseRejected
  /-- The promise of the enclosing connect() call resolved. -/
  | connectPromiseResolved
  /-- The heartbeat ping loop armed. -/
  | heartbeatArmed
  /-- An error of the given name raised to the caller.  The source never
  emits this from close; the constructor exists so the specified failure is
  expressible. -/
  | errorRaised (name : List Char)
  deriving DecidableEq

/-- The constructor options the modelled operations read. -/
structure ClientConfig where
  mRetryWaitingTimeStart : Int
  mRetryWaitingTimeStep : Int
  deriving DecidableEq

/-- The mutable fields of WebsocketificationClient the modelled operations
touch.  The temp listeners array keyed by correlation id becomes a partial
map from ids to waiter tokens, the global listeners array a partial map to
broadcast tokens, and the unhandled listener its presence bit.  The idle
auto-disconnect timer is not modelled; no claim concerns it. -/
structure ClientState (α β : Type) where
  mTempListeners : String → Option α
  mGlobalListeners : String → Option β
  mUnhandledListener : Bool
  mIsNicelyClosed : Bool
  mRetryWaitingTime : Int
  mOnClosePresent : Bool

/-- The state right after the constructor ran: empty listener maps, nicely
closed, backoff counter at its configured start. -/
def initialClientState (cfg : ClientConfig) : ClientState α β where
  mTempListeners := fun _ => none
  mGlobalListeners := fun _ => none
  mUnhandledListener := false
  mIsNicelyClosed := true
  mRetryWaitingTime := cfg.mRetryWaitingTimeStart
  mOnClosePresent := false

variable {α β : Type}

/-- Source WebsocketificationClient.onResponse: one-shot temp listener first
(deleted, then resolved or rejected by isSuccess), then the standing global
listener (invoked, kept), then the unhandled listener, else dropped. -/
def onResponse (s : ClientState α β) (r : Response) : ClientState α β × Effect α β :=
  match s.mTempListeners r.id with
  | some w =>
      ({ s with mTempListeners := fun k => if k = r.id then none else s.mTempListeners k },
       if r.isSuccess then .resolvedWaiter w r else .rejectedWaiter w r)
  | none =>
      match s.mGlobalListeners r.id with
      | some g => (s, if r.isSuccess then .broadcastOk g r else .broadcastErr g r)
      | none =>
          if s.mUnhandledListener then (s, .unhandledDelivered r)
          else (s, .droppedUnrouted)

/-- Source WebsocketificationClient.handleNoneRequestMessage: a command-led
frame equal to CMD_PING is answered with CMD_PONG, every other frame on this
path (including CMD_PONG) is consumed silently. -/
def handleNoneRequestMessage (data : List Char) : Effect α β :=
  if startsWithChars data cmdLead then
    if data = cmdPing then .sentFrame cmdPong
    else .ignoredFrame
  else .ignoredFrame

/-- Source ws.onmessage handler installed by connect().  Frames that do not
begin with the opening brace go to handleNoneRequestMessage; the rest are
parsed (Response.NewInstance, abstracted as the parse argument since JSON
decoding is an external collaborator), validated and dispatched. -/
def wsOnMessage (parse : List Char → Option Response) (s : ClientState α β)
    (data : List Char) : ClientState α β × Effect α β :=
  if !startsWithChars data jsonLead then (s, handleNoneRequestMessage data)
  else
    match parse data with
    | none => (s, .droppedUnparsable)
    | some r =>
        if !r.isValid then (s, .droppedInvalid)
        else onResponse s r

/-- Source ws.onopen handler: arms the ping loop, resets the retry waiting
time to its configured start and resolves the connect promise. -/
def wsOnOpen (cfg : ClientConfig) (s : ClientState α β) :
    ClientState α β × List (Effect α β) :=
  ({ s with mRetryWaitingTime := cfg.mRetryWaitingTimeStart },
   [.heartbeatArmed, .connectPromiseResolved])

/-- Source WebsocketificationClient.autoConnectOnAbnormalClose: schedules a
delayed reconnect after the current waiting time unless the current waiting
time plus the step is non-positive.  The counter increment happens later,
when the scheduled timer fires (see retryTimerFire). -/
def autoConnectOnAbnormalClose (cfg : ClientConfig) (s : ClientState α β) :
    ClientState α β × List (Effect α β) :=
  if s.mRetryWaitingTime + cfg.mRetryWaitingTimeStep ≤ 0 then (s, [])
  else (s, [.scheduledRetryConnect s.mRetryWaitingTime])

/-- The callback of the timer scheduled by autoConnectOnAbnormalClose: calls
connect() and then adds the step to the retry waiting time. -/
def retryTimerFire (cfg : ClientConfig) (s : ClientState α β) :
    ClientState α β × List (Effect α β) :=
  ({ s with mRetryWaitingTime := s.mRetryWaitingTime + cfg.mRetryWaitingTimeStep },
   [.startedConnect])

/-- Source ws.onclose handler: records whether the closure was clean, hands
an abnormal closure to autoConnectOnAbnormalClose, then invokes the close
listener when one is registered and rejects the connect promise. -/
def wsOnClose (cfg : ClientConfig) (s : ClientState α β) (wasClean : Bool) :
    ClientState α β × List (Effect α β) :=
  let p :=
    if wasClean then ({ s with mIsNicelyClosed := true }, ([] : List (Effect α β)))
    else autoConnectOnAbnormalClose cfg { s with mIsNicelyClosed := false }
  (p.1, p.2 ++ (if p.1.mOnClosePresent then [Effect.closeListenerInvoked] else [])
     ++ [Effect.connectPromiseRejected])

/-- Source WebsocketificationClient.close(code, reason): a single delegation
to the transport's close.  The ready state is accepted because the claim
speaks about it; the source never reads it here. -/
def close (ready : ReadyState) (s : ClientState α β) (code : Int)
    (reason : List Char) : ClientState α β × List (Effect α β) :=
  (s, [.wsCloseIssued code reason])

/-- Source checkConnection, the connection-test loop inside fetch.  One round
of the switch on the transport's ready state.  The outcome of the transparent
connect() in the closing/closed branch is supplied as an oracle: none when
the connect promise rejects, some rs when it resolves with the transport then
in state rs. -/
def checkConnection (s : ClientState α β) (ready : ReadyState)
    (connectOutcome : Option ReadyState) (time : Int) (reqId : String) (w : α) :
    ClientState α β × List (Effect α β) :=
  match ready with
  | .connecting => (s, [.recheckScheduled time])
  | .opened =>
      ({ s with mTempListeners := fun k => if k = reqId then some w else s.mTempListeners k },
       [.sentRequest reqId, .registeredWaiter reqId w])
  | .closing | .closed =>
      if s.mIsNicelyClosed then
        match connectOutcome with
        | none => (s, [.startedConnect, .fetchRejected .reconnectFailed])
        | some rs =>
            if rs = .opened then
              ({ s with
                  mTempListeners := fun k => if k = reqId then some w else s.mTempListeners k },
               [.startedConnect, .sentRequest reqId, .registeredWaiter reqId w])
            else (s, [.startedConnect, .fetchRejected .socketNotOpenAfterConnect])
      else (s, [.fetchRejected .connectionAbnormal])

/-- The reconnect waiting times announced in a list of effects. -/
def delaysOf (eff : List (Effect α β)) : List Int :=
  eff.filterMap fun e =>
    match e with
    | .scheduledRetryConnect d => some d
    | _ => none

/-- Whether a list of effects contains a scheduled reconnect. -/
def eventSchedules (eff : List (Effect α β)) : Bool :=
  !(delaysOf eff).isEmpty

/-- The connection-lifecycle events a retry trace is made of. -/
inductive ConnEvent where
  /-- A connect attempt reached ws.onopen. -/
  | openOk
  /-- The socket closed with wasClean false; when this schedules a retry the
  scheduled timer later fires (connect plus counter increment). -/
  | abnormalClose
  deriving DecidableEq

/-- One trace step: an open runs ws.onopen; an abnormal close runs
ws.onclose with wasClean false and, when a retry was scheduled, the fire of
that timer. -/
def connStep (cfg : ClientConfig) (s : ClientState α β) :
    ConnEvent → ClientState α β × List (Effect α β)
  | .openOk => wsOnOpen cfg s
  | .abnormalClose =>
      let p := wsOnClose cfg s false
      if eventSchedules p.2 then
        let q := retryTimerFire cfg p.1
        (q.1, p.2 ++ q.2)
      else p

/-- Folds a list of connection events, collecting each event's effects. -/
def runConn (cfg : ClientConfig) :
    ClientState α β → List ConnEvent → ClientState α β × List (List (Effect α β))
  | s, [] => (s, [])
  | s, e :: evs =>
      let p := connStep cfg s e
      let q := runConn cfg p.1 evs
      (q.1, p.2 :: q.2)

/-- JavaScript setTimeout clamps a non-positive requested delay to zero and
the timer still fires; this is the effective delay of one ping-loop round. -/
def setTimeoutFireDelay (d : Int) : Nat := d.toNat

/-- The time at which the ping loop's timer fires for the n-th time after
ws.onopen armed it (fires are counted from zero). -/
def pingFireTime (interval : Int) (n : Nat) : Nat :=
  (n + 1) * setTimeoutFireDelay interval

/-- The ping loop of ws.onopen observed at its timer fires: readyAt n is the
transport's ready state at the n-th fire.  The pair holds whether the loop is
still armed after n fires and how many CMD_PING frames were sent during
them.  The timer callback sends and re-arms exactly when the socket is open;
it never reads the configured interval. -/
def pingTrace (readyAt : Nat → ReadyState) : Nat → Bool × Nat
  | 0 => (true, 0)
  | n + 1 =>
      let p := pingTrace readyAt n
      if p.1 && readyAt n == .opened then (true, p.2 + 1) else (false, p.2)

/-- The number of heartbeat probes sent during the first n timer fires.  The
interval argument is what the source passes to setTimeout; the send decision
in the callback does not depend on it (the timer fires regardless, see
setTimeoutFireDelay), which this definition makes explicit. -/
def pingCount (interval : Int) (readyAt : Nat → ReadyState) (n : Nat) : Nat :=
  (pingTrace readyAt n).2

/-- Effects that mean the frame reached the response dispatcher onResponse. -/
def isDispatchOutcome : Effect α β → Bool
  | .resolvedWaiter _ _ => true
  | .rejectedWaiter _ _ => true
  | .broadcastOk _ _ => true
  | .broadcastErr _ _ => true
  | .unhandledDelivered _ => true
  | .droppedUnrouted => true
  | _ => false

/-- The error name the specification assigns to a close call outside the
open state. -/
def notOpenErrorName : List Char :=
  ['N', 'o', 't', 'O', 'p', 'e', 'n', 'E', 'r', 'r', 'o', 'r']

/-- Modelled from the spec (claim C3): closing while the transport is not
open fails with a NotOpenError. -/
def closeRejectsWhenNotOpen : Prop :=
  ∀ (ready : ReadyState) (s : ClientState Nat Nat) (code : Int) (reason : List Char),
    ready ≠ .opened →
    ∃ nm, Effect.errorRaised nm ∈ (close ready s code reason).2

/-- Modelled from the spec (claim C4): with a non-positive configured
start-plus-step no abnormal closure ever schedules a reconnect, and with a
positive start-plus-step every abnormal closure, in every reachable state,
schedules one. -/
def reconnectGuardClaim : Prop :=
  ∀ cfg : ClientConfig,
    (cfg.mRetryWaitingTimeStart + cfg.mRetryWaitingTimeStep ≤ 0 →
      ∀ evs : List ConnEvent,
        eventSchedules (connStep cfg
          ((runConn cfg (initialClientState cfg : ClientState Nat Nat) evs).1)
          ConnEvent.abnormalClose).2 = false) ∧
    (0 < cfg.mRetryWaitingTimeStart + cfg.mRetryWaitingTimeStep →
      ∀ evs : List ConnEvent,
        eventSchedules (connStep cfg
          ((runConn cfg (initialClientState cfg : ClientState Nat Nat) evs).1)
          ConnEvent.abnormalClose).2 = true)

/-- Modelled from the spec (claim C6): a non-positive heartbeat interval
means no liveness probe is ever sent. -/
def heartbeatDisabledWhenNonPositive : Prop :=
  ∀ interval : Int, interval ≤ 0 →
    ∀ (readyAt : Nat → ReadyState) (n : Nat), pingCount interval readyAt n = 0

lemma isSuccess_iff (r : Response) :
    r.isSuccess = true ↔ ((200 ≤ r.status ∧ r.status < 300) ∨ r.status = 304) := by
  simp [Response.isSuccess, Bool.or_eq_true, Bool.and_eq_true, decide_eq_true_eq]

/-- C1: Every inbound response envelope is dispatched with this precedence:
a registered pending waiter under the envelope's id is removed and then
resolved when the status lies in the range from 200 below 300 or equals 304
and rejected otherwise; failing that, a broadcast subscription under the same
key is invoked, with the null-then-response shape on success status and with
the response as error otherwise, and is not removed; failing that, a
registered unhandled-response sink receives the envelope; otherwise it is
dropped. -/
theorem responseDispatchPrecedence (s : ClientState α β) (r : Response) :
    (r.isSuccess = true ↔ ((200 ≤ r.status ∧ r.status < 300) ∨ r.status = 304)) ∧
    (∀ w, s.mTempListeners r.id = some w →
      (onResponse s r).1.mTempListeners r.id = none ∧
      (∀ k, k ≠ r.id → (onResponse s r).1.mTempListeners k = s.mTempListeners k) ∧
      (onResponse s r).1.mGlobalListeners = s.mGlobalListeners ∧
      (r.isSuccess = true → (onResponse s r).2 = Effect.resolvedWaiter w r) ∧
      (r.isSuccess = false → (onResponse s r).2 = Effect.rejectedWaiter w r)) ∧
    (s.mTempListeners r.id = none → ∀ g, s.mGlobalListeners r.id = some g →
      (onResponse s r).1 = s ∧
      (r.isSuccess = true → (onResponse s r).2 = Effect.broadcastOk g r) ∧
      (r.isSuccess = false → (onResponse s r).2 = Effect.broadcastErr g r)) ∧
    (s.mTempListeners r.id = none → s.mGlobalListeners r.id = none →
      s.mUnhandledListener = true → onResponse s r = (s, Effect.unhandledDelivered r)) ∧
    (s.mTempListeners r.id = none → s.mGlobalListeners r.id = none →
      s.mUnhandledListener = false → onResponse s r = (s, Effect.droppedUnrouted)) := by
  refine ⟨isSuccess_iff r, ?_, ?_, ?_, ?_⟩
  · intro w hw
    refine ⟨by simp [onResponse, hw], fun k hk => by simp [onResponse, hw, hk], ?_, ?_, ?_⟩
    · simp [onResponse, hw]
    · intro hsucc; simp [onResponse, hw, hsucc]
    · intro hfail; simp [onResponse, hw, hfail]
  · intro ht g hg
    refine ⟨by simp [onResponse, ht, hg], ?_, ?_⟩
    · intro hsucc; simp [onResponse, ht, hg, hsucc]
    · intro hfail; simp [onResponse, ht, hg, hfail]
  · intro ht hg hu; simp [onResponse, ht, hg, hu]
  · intro ht hg hu; simp [onResponse, ht, hg, hu]

/-- Witness for C1: the four dispatch branches observed on concrete states. -/
theorem responseDispatchPrecedenceInstance :
    (onResponse (β := Nat)
        { mTempListeners := fun k => if k = "a" then some 1 else none
          mGlobalListeners := fun _ => none
          mUnhandledListener := false, mIsNicelyClosed := true
          mRetryWaitingTime := 0, mOnClosePresent := false }
        ⟨"a", 200, "ok"⟩).2 = Effect.resolvedWaiter 1 ⟨"a", 200, "ok"⟩ ∧
    (onResponse (β := Nat)
        { mTempListeners := fun k => if k = "a" then some 1 else none
          mGlobalListeners := fun _ => none
          mUnhandledListener := false, mIsNicelyClosed := true
          mRetryWaitingTime := 0, mOnClosePresent := false }
        ⟨"a", 200, "ok"⟩).1.mTempListeners "a" = none ∧
    (onResponse (α := Nat)
        { mTempListeners := fun _ => none
          mGlobalListeners := fun k => if k = "t" then some 5 else none
          mUnhandledListener := false, mIsNicelyClosed := true
          mRetryWaitingTime := 0, mOnClosePresent := false }
        ⟨"t", 500, "no"⟩).2 = Effect.broadcastErr 5 ⟨"t", 500, "no"⟩ ∧
    (onResponse (α := Nat) (β := Nat)
        { mTempListeners := fun _ => none
          mGlobalListeners := fun _ => none
          mUnhandledListener := true, mIsNicelyClosed := true
          mRetryWaitingTime := 0, mOnClosePresent := false }
        ⟨"u", 404, "x"⟩).2 = Effect.unhandledDelivered ⟨"u", 404, "x"⟩ ∧
    (onResponse (α := Nat) (β := Nat)
        { mTempListeners := fun _ => none
          mGlobalListeners := fun _ => none
          mUnhandledListener := false, mIsNicelyClosed := true
          mRetryWaitingTime := 0, mOnClosePresent := false }
        ⟨"u", 404, "x"⟩).2 = Effect.droppedUnrouted := by
  refine ⟨?_, ?_, ?_, ?_, ?_⟩
  · exact ((responseDispatchPrecedence _ _).2.1 1 rfl).2.2.2.1 rfl
  · exact ((responseDispatchPrecedence _ _).2.1 1 rfl).1
  · exact (((responseDispatchPrecedence _ _).2.2.1 rfl 5 rfl).2.2) rfl
  · exact congrArg Prod.snd ((responseDispatchPrecedence _ _).2.2.2.1 rfl rfl rfl)
  · exact congrArg Prod.snd ((responseDispatchPrecedence _ _).2.2.2.2 rfl rfl rfl)

/-- C8: Completion is matched strictly by correlation id: dispatching the
envelope matching one pending request completes only that request's waiter
and leaves every other pending entry in the registry unchanged. -/
theorem outOfOrderCompletion (s : ClientState α β) (r : Response)
    (idOther : String) (wOther wMatch : α)
    (hne : idOther ≠ r.id)
    (hOther : s.mTempListeners idOther = some wOther)
    (hMatch : s.mTempListeners r.id = some wMatch) :
    (onResponse s r).1.mTempListeners idOther = some wOther ∧
    (onResponse s r).1.mTempListeners r.id = none ∧
    (r.isSuccess = true → (onResponse s r).2 = Effect.resolvedWaiter wMatch r) ∧
    (r.isSuccess = false → (onResponse s r).2 = Effect.rejectedWaiter wMatch r) := by
  refine ⟨?_, by simp [onResponse, hMatch], ?_, ?_⟩
  · simp [onResponse, hMatch, hne, hOther]
  · intro hsucc; simp [onResponse, hMatch, hsucc]
  · intro hfail; simp [onResponse, hMatch, hfail]

/-- Witness for C8: with waiters 1 under id a and 2 under id b pending, the
response for b completes waiter 2 and leaves the entry for a untouched. -/
theorem outOfOrderCompletionInstance :
    (onResponse (β := Nat)
        { mTempListeners := fun k => if k = "a" then some 1 else if k = "b" then some 2 else none
          mGlobalListeners := fun _ => none
          mUnhandledListener := false, mIsNicelyClosed := true
          mRetryWaitingTime := 0, mOnClosePresent := false }
        ⟨"b", 204, "z"⟩).1.mTempListeners "a" = some 1 ∧
    (onResponse (β := Nat)
        { mTempListeners := fun k => if k = "a" then some 1 else if k = "b" then some 2 else none
          mGlobalListeners := fun _ => none
          mUnhandledListener := false, mIsNicelyClosed := true
          mRetryWaitingTime := 0, mOnClosePresent := false }
        ⟨"b", 204, "z"⟩).2 = Effect.resolvedWaiter 2 ⟨"b", 204, "z"⟩ := by
  have h := outOfOrderCompletion (β := Nat)
    { mTempListeners := fun k => if k = "a" then some 1 else if k = "b" then some 2 else none
      mGlobalListeners := fun _ => none
      mUnhandledListener := false, mIsNicelyClosed := true
      mRetryWaitingTime := 0, mOnClosePresent := false }
    ⟨"b", 204, "z"⟩ "a" 1 2 (by decide) rfl rfl
  exact ⟨h.1, h.2.2.1 rfl⟩

lemma startsWithChars_cmd_not_json {data : List Char}
    (h : startsWithChars data cmdLead = true) :
    startsWithChars data jsonLead = false := by
  cases data with
  | nil => simp [startsWithChars, cmdLead] at h
  | cons c cs =>
      have hc : c = '$' := by
        simpa [startsWithChars, cmdLead, Bool.and_eq_true] using h
      subst hc
      simp [startsWithChars, jsonLead]

/-- C7: A frame that begins with the reserved command lead never reaches the
response dispatcher and leaves the client state unchanged; the exact probe
CMD_PING is answered with the exact literal CMD_PONG, and a received
CMD_PONG is consumed silently. -/
theorem commandFramesNeverDispatched (parse : List Char → Option Response)
    (s : ClientState α β) (data : List Char)
    (h : startsWithChars data cmdLead = true) :
    (wsOnMessage parse s data).1 = s ∧
    isDispatchOutcome (wsOnMessage parse s data).2 = false ∧
    wsOnMessage parse s cmdPing = (s, Effect.sentFrame cmdPong) ∧
    wsOnMessage parse s cmdPong = (s, Effect.ignoredFrame) := by
  have hjson := startsWithChars_cmd_not_json h
  have hmsg : wsOnMessage parse s data = (s, handleNoneRequestMessage data) := by
    simp [wsOnMessage, hjson]
  refine ⟨by rw [hmsg], ?_, rfl, rfl⟩
  rw [hmsg]
  by_cases hp : data = cmdPing
  · subst hp; rfl
  · simp [handleNoneRequestMessage, h, hp, isDispatchOutcome]

/-- Witness for C7: a command frame other than the two probes is consumed
without dispatching, and the two probe literals behave as claimed. -/
theorem commandFramesNeverDispatchedInstance :
    (wsOnMessage (α := Nat) (β := Nat) (fun _ => none)
        (initialClientState ⟨0, 230⟩) ['$', 'X']).1 = initialClientState ⟨0, 230⟩ ∧
    isDispatchOutcome (wsOnMessage (α := Nat) (β := Nat) (fun _ => none)
        (initialClientState ⟨0, 230⟩) ['$', 'X']).2 = false ∧
    wsOnMessage (α := Nat) (β := Nat) (fun _ => none)
        (initialClientState ⟨0, 230⟩) cmdPing
      = (initialClientState ⟨0, 230⟩, Effect.sentFrame cmdPong) ∧
    wsOnMessage (α := Nat) (β := Nat) (fun _ => none)
        (initialClientState ⟨0, 230⟩) cmdPong
      = (initialClientState ⟨0, 230⟩, Effect.ignoredFrame) :=
  commandFramesNeverDispatched (fun _ => none) (initialClientState ⟨0, 230⟩)
    ['$', 'X'] (by decide)

/-- C10: A brace-led frame that parses into an envelope whose id is the
empty string or whose status equals zero is dropped as invalid and never
dispatched to any waiter, subscription or unhandled sink. -/
theorem invalidEnvelopeDropped (parse : List Char → Option Response)
    (s : ClientState α β) (data : List Char) (r : Response)
    (hlead : startsWithChars data jsonLead = true)
    (hparse : parse data = some r)
    (hbad : r.id = "" ∨ r.status = 0) :
    wsOnMessage parse s data = (s, Effect.droppedInvalid) ∧
    isDispatchOutcome (Effect.droppedInvalid : Effect α β) = false := by
  have hval : r.isValid = false := by
    rcases hbad with hid | hst
    · simp [Response.isValid, hid]
    · simp [Response.isValid, hst]
  exact ⟨by simp [wsOnMessage, hlead, hparse, hval], rfl⟩

/-- Witness for C10: a parsed envelope with empty id and one with status
zero are both dropped as invalid. -/
theorem invalidEnvelopeDroppedInstance :
    wsOnMessage (α := Nat) (β := Nat)
        (fun d => if d = ['\x7b'] then some ⟨"", 200, ""⟩ else none)
        (initialClientState ⟨0, 230⟩) ['\x7b']
      = (initialClientState ⟨0, 230⟩, Effect.droppedInvalid) ∧
    wsOnMessage (α := Nat) (β := Nat)
        (fun d => if d = ['\x7b'] then some ⟨"q", 0, ""⟩ else none)
        (initialClientState ⟨0, 230⟩) ['\x7b']
      = (initialClientState ⟨0, 230⟩, Effect.droppedInvalid) := by
  constructor
  · exact (invalidEnvelopeDropped _ _ _ ⟨"", 200, ""⟩ (by decide) rfl (Or.inl rfl)).1
  · exact (invalidEnvelopeDropped _ _ _ ⟨"q", 0, ""⟩ (by decide) rfl (Or.inr rfl)).1

/-- C9: Handling a transport close event, clean or abnormal, never resolves
or rejects any pending waiter and leaves the pending-waiter registry
unchanged. -/
theorem closeEventPreservesWaiters (cfg : ClientConfig) (s : ClientState α β)
    (wasClean : Bool) :
    (wsOnClose cfg s wasClean).1.mTempListeners = s.mTempListeners ∧
    (∀ (w : α) (r : Response),
      Effect.resolvedWaiter w r ∉ (wsOnClose cfg s wasClean).2 ∧
      Effect.rejectedWaiter w r ∉ (wsOnClose cfg s wasClean).2) := by
  constructor
  · cases wasClean <;>
      by_cases hg : s.mRetryWaitingTime + cfg.mRetryWaitingTimeStep ≤ 0 <;>
      simp [wsOnClose, autoConnectOnAbnormalClose, hg]
  · intro w r
    cases wasClean <;>
      by_cases hg : s.mRetryWaitingTime + cfg.mRetryWaitingTimeStep ≤ 0 <;>
      by_cases hc : s.mOnClosePresent <;>
      simp [wsOnClose, autoConnectOnAbnormalClose, hg, hc]

/-- Witness for C9: on a concrete state with a pending waiter, both a clean
and an abnormal close leave the registry entry in place. -/
theorem closeEventPreservesWaitersInstance :
    (wsOnClose (β := Nat) ⟨50, 230⟩
        { mTempListeners := fun k => if k = "a" then some 1 else none
          mGlobalListeners := fun _ => none
          mUnhandledListener := false, mIsNicelyClosed := true
          mRetryWaitingTime := 50, mOnClosePresent := true }
        true).1.mTempListeners = (fun k => if k = "a" then some (1 : Nat) else none) ∧
    (wsOnClose (β := Nat) ⟨50, 230⟩
        { mTempListeners := fun k => if k = "a" then some 1 else none
          mGlobalListeners := fun _ => none
          mUnhandledListener := false, mIsNicelyClosed := true
          mRetryWaitingTime := 50, mOnClosePresent := true }
        false).1.mTempListeners = (fun k => if k = "a" then some (1 : Nat) else none) ∧
    Effect.resolvedWaiter 1 ⟨"a", 200, ""⟩ ∉
      (wsOnClose (β := Nat) ⟨50, 230⟩
        { mTempListeners := fun k => if k = "a" then some 1 else none
          mGlobalListeners := fun _ => none
          mUnhandledListener := false, mIsNicelyClosed := true
          mRetryWaitingTime := 50, mOnClosePresent := true }
        false).2 :=
  ⟨(closeEventPreservesWaiters _ _ true).1,
   (closeEventPreservesWaiters _ _ false).1,
   ((closeEventPreservesWaiters _ _ false).2 1 ⟨"a", 200, ""⟩).1⟩

/-- Counterexample to C3 as stated: with the transport closed, close does
not fail with a NotOpenError; it raises no error at all and simply forwards
the close to the transport. -/
theorem closeClaimRefuted : ¬ closeRejectsWhenNotOpen := by
  intro h
  obtain ⟨nm, hnm⟩ :=
    h .closed (initialClientState ⟨0, 230⟩) 1000 [] (by decide)
  simp [close] at hnm

/-- C3 amended: close(code, reason) forwards the given code and reason to
the transport's close unconditionally, in every transport state; it performs
no state check, raises no error, does not touch the nicely-closed flag (that
flag is set later by the close event handler from the event's wasClean bit),
and returns nothing beyond issuing the transport close. -/
theorem closeDelegatesUnconditionally (ready : ReadyState) (s : ClientState α β)
    (code : Int) (reason : List Char) :
    close ready s code reason = (s, [Effect.wsCloseIssued code reason]) ∧
    (∀ nm, Effect.errorRaised nm ∉ (close ready s code reason).2) ∧
    (close ready s code reason).1.mIsNicelyClosed = s.mIsNicelyClosed := by
  refine ⟨rfl, ?_, rfl⟩
  intro nm
  simp [close]

/-- Witness for C3 amended: closing a closed transport still just issues the
transport close and raises nothing. -/
theorem closeDelegatesUnconditionallyInstance :
    close (α := Nat) (β := Nat) .closed (initialClientState ⟨0, 230⟩) 1000 []
      = (initialClientState ⟨0, 230⟩, [Effect.wsCloseIssued 1000 []]) ∧
    Effect.errorRaised notOpenErrorName ∉
      (close (α := Nat) (β := Nat) .closed (initialClientState ⟨0, 230⟩) 1000 []).2 :=
  ⟨(closeDelegatesUnconditionally _ _ _ _).1,
   (closeDelegatesUnconditionally _ _ _ _).2.1 notOpenErrorName⟩

/-- C2: A fetch connection check that finds the transport closing or closed
behaves by the last closure: after a clean closure it starts a transparent
reconnect and, when that connects, sends the request and registers the
waiter under its id, while a failed reconnect rejects the fetch; after an
abnormal closure it rejects the fetch immediately with the
connection-abnormal error, sending nothing and registering nothing. -/
theorem fetchWhileClosed (s : ClientState α β) (ready : ReadyState)
    (co : Option ReadyState) (time : Int) (reqId : String) (w : α)
    (hready : ready = .closing ∨ ready = .closed) :
    (s.mIsNicelyClosed = false →
      checkConnection s ready co time reqId w
        = (s, [Effect.fetchRejected .connectionAbnormal]) ∧
      (∀ i, Effect.sentRequest i ∉ (checkConnection s ready co time reqId w).2) ∧
      (∀ i w0, Effect.registeredWaiter i w0 ∉ (checkConnection s ready co time reqId w).2)) ∧
    (s.mIsNicelyClosed = true → co = some .opened →
      (checkConnection s ready co time reqId w).1.mTempListeners reqId = some w ∧
      Effect.startedConnect ∈ (checkConnection s ready co time reqId w).2 ∧
      Effect.sentRequest reqId ∈ (checkConnection s ready co time reqId w).2 ∧
      Effect.registeredWaiter reqId w ∈ (checkConnection s ready co time reqId w).2) ∧
    (s.mIsNicelyClosed = true → co ≠ some .opened →
      (checkConnection s ready co time reqId w).1 = s ∧
      ∃ k, k ≠ FetchErrorKind.connectionAbnormal ∧
        (checkConnection s ready co time reqId w).2
          = [Effect.startedConnect, Effect.fetchRejected k]) := by
  refine ⟨?_, ?_, ?_⟩
  · intro hnice
    rcases hready with h | h <;> subst h <;>
      simp [checkConnection, hnice]
  · intro hnice hco
    subst hco
    rcases hready with h | h <;> subst h <;>
      simp [checkConnection, hnice]
  · intro hnice hco
    rcases hready with h | h <;> subst h <;>
      · cases co with
        | none => exact ⟨by simp [checkConnection, hnice], .reconnectFailed, by simp,
            by simp [checkConnection, hnice]⟩
        | some rs =>
            have hrs : rs ≠ .opened := by
              intro h; exact hco (by rw [h])
            exact ⟨by simp [checkConnection, hnice, hrs], .socketNotOpenAfterConnect,
              by simp, by simp [checkConnection, hnice, hrs]⟩

/-- Witness for C2: on a closed transport, an abnormal last closure rejects
the fetch outright, and a clean last closure with a successful reconnect
sends and registers the request. -/
theorem fetchWhileClosedInstance :
    checkConnection (β := Nat)
        { mTempListeners := fun _ => none
          mGlobalListeners := fun _ => none
          mUnhandledListener := false, mIsNicelyClosed := false
          mRetryWaitingTime := 0, mOnClosePresent := false }
        .closed (some .opened) 100 "r1" (7 : Nat)
      = ({ mTempListeners := fun _ => none
           mGlobalListeners := fun _ => none
           mUnhandledListener := false, mIsNicelyClosed := false
           mRetryWaitingTime := 0, mOnClosePresent := false },
         [Effect.fetchRejected .connectionAbnormal]) ∧
    (checkConnection (β := Nat)
        { mTempListeners := fun _ => none
          mGlobalListeners := fun _ => none
          mUnhandledListener := false, mIsNicelyClosed := true
          mRetryWaitingTime := 0, mOnClosePresent := false }
        .closed (some .opened) 100 "r1" (7 : Nat)).1.mTempListeners "r1" = some 7 ∧
    Effect.sentRequest "r1" ∈
      (checkConnection (β := Nat)
        { mTempListeners := fun _ => none
          mGlobalListeners := fun _ => none
          mUnhandledListener := false, mIsNicelyClosed := true
          mRetryWaitingTime := 0, mOnClosePresent := false }
        .closed (some .opened) 100 "r1" (7 : Nat)).2 := by
  refine ⟨?_, ?_, ?_⟩
  · exact (fetchWhileClosed _ .closed (some .opened) 100 "r1" 7 (Or.inr rfl)).1 rfl |>.1
  · exact ((fetchWhileClosed _ .closed (some .opened) 100 "r1" 7 (Or.inr rfl)).2.1 rfl rfl).1
  · exact ((fetchWhileClosed _ .closed (some .opened) 100 "r1" 7 (Or.inr rfl)).2.1 rfl rfl).2.2.1

lemma connStep_open_w (cfg : ClientConfig) (s : ClientState α β) :
    (connStep cfg s ConnEvent.openOk).1.mRetryWaitingTime
      = cfg.mRetryWaitingTimeStart := by
  simp [connStep, wsOnOpen]

lemma connStep_close_disabled (cfg : ClientConfig) (s : ClientState α β)
    (h : s.mRetryWaitingTime + cfg.mRetryWaitingTimeStep ≤ 0) :
    (connStep cfg s ConnEvent.abnormalClose).1.mRetryWaitingTime
      = s.mRetryWaitingTime ∧
    eventSchedules (connStep cfg s ConnEvent.abnormalClose).2 = false := by
  by_cases hc : s.mOnClosePresent <;>
    simp [connStep, wsOnClose, autoConnectOnAbnormalClose, h, hc,
      eventSchedules, delaysOf]

lemma connStep_close_enabled (cfg : ClientConfig) (s : ClientState α β)
    (h : 0 < s.mRetryWaitingTime + cfg.mRetryWaitingTimeStep) :
    (connStep cfg s ConnEvent.abnormalClose).1.mRetryWaitingTime
      = s.mRetryWaitingTime + cfg.mRetryWaitingTimeStep ∧
    delaysOf (connStep cfg s ConnEvent.abnormalClose).2 = [s.mRetryWaitingTime] ∧
    eventSchedules (connStep cfg s ConnEvent.abnormalClose).2 = true := by
  have hn : ¬ s.mRetryWaitingTime + cfg.mRetryWaitingTimeStep ≤ 0 := not_le.mpr h
  by_cases hc : s.mOnClosePresent <;>
    simp [connStep, wsOnClose, autoConnectOnAbnormalClose, retryTimerFire, hn, hc,
      eventSchedules, delaysOf]

lemma runConn_disabled_w (cfg : ClientConfig)
    (h : cfg.mRetryWaitingTimeStart + cfg.mRetryWaitingTimeStep ≤ 0) :
    ∀ (evs : List ConnEvent) (s : ClientState α β),
      s.mRetryWaitingTime = cfg.mRetryWaitingTimeStart →
      (runConn cfg s evs).1.mRetryWaitingTime = cfg.mRetryWaitingTimeStart := by
  intro evs
  induction evs with
  | nil => intro s hs; simpa [runConn] using hs
  | cons e evs ih =>
      intro s hs
      cases e with
      | openOk =>
          simpa [runConn] using ih _ (connStep_open_w cfg s)
      | abnormalClose =>
          have hg : s.mRetryWaitingTime + cfg.mRetryWaitingTimeStep ≤ 0 := by
            rw [hs]; exact h
          have h1 := (connStep_close_disabled cfg s hg).1
          simpa [runConn] using ih _ (by rw [h1, hs])

lemma runConn_enabled_w (cfg : ClientConfig)
    (hstep : 0 ≤ cfg.mRetryWaitingTimeStep) :
    ∀ (evs : List ConnEvent) (s : ClientState α β),
      cfg.mRetryWaitingTimeStart ≤ s.mRetryWaitingTime →
      cfg.mRetryWaitingTimeStart ≤ (runConn cfg s evs).1.mRetryWaitingTime := by
  intro evs
  induction evs with
  | nil => intro s hs; simpa [runConn] using hs
  | cons e evs ih =>
      intro s hs
      cases e with
      | openOk =>
          have h1 := connStep_open_w (α := α) (β := β) cfg s
          simpa [runConn] using ih _ (le_of_eq h1.symm)
      | abnormalClose =>
          by_cases hg : s.mRetryWaitingTime + cfg.mRetryWaitingTimeStep ≤ 0
          · have h1 := (connStep_close_disabled cfg s hg).1
            simpa [runConn] using ih _ (by rw [h1]; exact hs)
          · have h1 := (connStep_close_enabled cfg s (not_le.mp hg)).1
            simpa [runConn] using ih _ (by rw [h1]; omega)

/-- Counterexample to C4 as stated: with start 100 and step negative 30 the
configured start-plus-step is positive, yet after three consecutive abnormal
closures (the backoff having decayed to 10) the fourth abnormal closure
schedules no reconnect, because the guard tests the current backoff plus
step, not the configured start plus step. -/
theorem reconnectGuardClaimRefuted : ¬ reconnectGuardClaim := by
  intro h
  have h2 := (h ⟨100, -30⟩).2 (by decide) (List.replicate 3 ConnEvent.abnormalClose)
  have h3 : eventSchedules (connStep (⟨100, -30⟩ : ClientConfig)
      ((runConn ⟨100, -30⟩ (initialClientState ⟨100, -30⟩ : ClientState Nat Nat)
        (List.replicate 3 ConnEvent.abnormalClose)).1)
      ConnEvent.abnormalClose).2 = false := by decide
  rw [h2] at h3
  exact Bool.noConfusion h3

/-- C4 amended: a non-positive configured start-plus-step disables
auto-reconnection entirely (no abnormal closure in any reachable state ever
schedules a reconnect); with a non-negative step and positive start-plus-step
every abnormal closure schedules one; in general an abnormal closure
schedules a reconnect exactly when the current backoff plus the step is
positive, so a negative step can let the backoff decay until reconnection
stops. -/
theorem autoReconnectGuard (cfg : ClientConfig) (evs : List ConnEvent) :
    (cfg.mRetryWaitingTimeStart + cfg.mRetryWaitingTimeStep ≤ 0 →
      eventSchedules (connStep cfg
        ((runConn cfg (initialClientState cfg : ClientState Nat Nat) evs).1)
        ConnEvent.abnormalClose).2 = false) ∧
    (0 ≤ cfg.mRetryWaitingTimeStep →
      0 < cfg.mRetryWaitingTimeStart + cfg.mRetryWaitingTimeStep →
      eventSchedules (connStep cfg
        ((runConn cfg (initialClientState cfg : ClientState Nat Nat) evs).1)
        ConnEvent.abnormalClose).2 = true) ∧
    (∀ s : ClientState Nat Nat,
      eventSchedules (connStep cfg s ConnEvent.abnormalClose).2
        = decide (0 < s.mRetryWaitingTime + cfg.mRetryWaitingTimeStep)) := by
  refine ⟨?_, ?_, ?_⟩
  · intro h
    have hw := runConn_disabled_w (α := Nat) (β := Nat) cfg h evs
      (initialClientState cfg) rfl
    exact (connStep_close_disabled cfg _ (by rw [hw]; exact h)).2
  · intro hstep hsum
    have hw := runConn_enabled_w (α := Nat) (β := Nat) cfg hstep evs
      (initialClientState cfg) (le_refl _)
    exact (connStep_close_enabled cfg _ (by omega)).2.2
  · intro s
    by_cases hg : s.mRetryWaitingTime + cfg.mRetryWaitingTimeStep ≤ 0
    · rw [(connStep_close_disabled cfg s hg).2, decide_eq_false (not_lt.mpr hg)]
    · rw [(connStep_close_enabled cfg s (not_le.mp hg)).2.2,
        decide_eq_true (not_le.mp hg)]

/-- Witness for C4 amended: with start and step both zero the abnormal close
after one closure schedules nothing, and with start 0 and step 150 it does
schedule. -/
theorem autoReconnectGuardInstance :
    eventSchedules (connStep (⟨0, 0⟩ : ClientConfig)
      ((runConn ⟨0, 0⟩ (initialClientState ⟨0, 0⟩ : ClientState Nat Nat)
        [ConnEvent.abnormalClose]).1) ConnEvent.abnormalClose).2 = false ∧
    eventSchedules (connStep (⟨0, 150⟩ : ClientConfig)
      ((runConn ⟨0, 150⟩ (initialClientState ⟨0, 150⟩ : ClientState Nat Nat)
        [ConnEvent.abnormalClose]).1) ConnEvent.abnormalClose).2 = true :=
  ⟨(autoReconnectGuard ⟨0, 0⟩ [ConnEvent.abnormalClose]).1 (by decide),
   (autoReconnectGuard ⟨0, 150⟩ [ConnEvent.abnormalClose]).2.1 (by decide) (by decide)⟩

lemma runConn_closes_w :
    ∀ (n : Nat) (s : ClientState Nat Nat), 0 ≤ s.mRetryWaitingTime →
      (runConn ⟨0, 150⟩ s (List.replicate n ConnEvent.abnormalClose)).1.mRetryWaitingTime
        = s.mRetryWaitingTime + 150 * n := by
  intro n
  induction n with
  | zero => intro s hs; simp [runConn]
  | succ n ih =>
      intro s hs
      have hg : (0 : Int) < s.mRetryWaitingTime
          + (⟨0, 150⟩ : ClientConfig).mRetryWaitingTimeStep := by
        show (0 : Int) < s.mRetryWaitingTime + 150
        omega
      have h1 := (connStep_close_enabled ⟨0, 150⟩ s hg).1
      have h2 := ih ((connStep ⟨0, 150⟩ s ConnEvent.abnormalClose).1) (by rw [h1]; omega)
      rw [List.replicate_succ]
      simp only [runConn]
      rw [h2, h1]
      push_cast
      ring

/-- C5: Under start 0 and step 150, running n consecutive abnormal closures
from the initial state leaves the backoff at 150 times n, so the next (the
n-plus-first) closure schedules its reconnect after exactly 150 times n
milliseconds, giving the unbounded delay sequence 0, 150, 300, and so on;
and a successful open resets the backoff to the configured start. -/
theorem backoffSequence :
    (∀ n : Nat,
      delaysOf (connStep (⟨0, 150⟩ : ClientConfig)
        ((runConn ⟨0, 150⟩ (initialClientState ⟨0, 150⟩ : ClientState Nat Nat)
          (List.replicate n ConnEvent.abnormalClose)).1)
        ConnEvent.abnormalClose).2 = [(150 : Int) * n]) ∧
    (∀ B : Int, ∃ (n : Nat) (d : Int), B < d ∧
      delaysOf (connStep (⟨0, 150⟩ : ClientConfig)
        ((runConn ⟨0, 150⟩ (initialClientState ⟨0, 150⟩ : ClientState Nat Nat)
          (List.replicate n ConnEvent.abnormalClose)).1)
        ConnEvent.abnormalClose).2 = [d]) ∧
    (∀ (cfg : ClientConfig) (s : ClientState Nat Nat),
      (wsOnOpen cfg s).1.mRetryWaitingTime = cfg.mRetryWaitingTimeStart) := by
  have key : ∀ n : Nat,
      delaysOf (connStep (⟨0, 150⟩ : ClientConfig)
        ((runConn ⟨0, 150⟩ (initialClientState ⟨0, 150⟩ : ClientState Nat Nat)
          (List.replicate n ConnEvent.abnormalClose)).1)
        ConnEvent.abnormalClose).2 = [(150 : Int) * n] := by
    intro n
    have hw := runConn_closes_w n (initialClientState ⟨0, 150⟩) (by decide)
    have hw0 : (runConn (⟨0, 150⟩ : ClientConfig)
        (initialClientState ⟨0, 150⟩ : ClientState Nat Nat)
        (List.replicate n ConnEvent.abnormalClose)).1.mRetryWaitingTime
        = (150 : Int) * n := by
      rw [hw]
      show (0 : Int) + 150 * n = 150 * n
      omega
    have hg : (0 : Int) < (runConn (⟨0, 150⟩ : ClientConfig)
        (initialClientState ⟨0, 150⟩ : ClientState Nat Nat)
        (List.replicate n ConnEvent.abnormalClose)).1.mRetryWaitingTime
        + (⟨0, 150⟩ : ClientConfig).mRetryWaitingTimeStep := by
      rw [hw0]
      show (0 : Int) < 150 * n + 150
      positivity
    have hd := (connStep_close_enabled ⟨0, 150⟩ _ hg).2.1
    rw [hd, hw0]
  refine ⟨key, ?_, fun cfg s => rfl⟩
  intro B
  refine ⟨B.toNat + 1, (150 : Int) * (B.toNat + 1 : Nat), ?_, key _⟩
  push_cast
  omega

/-- Counterexample to C6 as stated: with heartbeat interval zero (a
non-positive value) and the socket open, the first timer fire still sends a
probe, because the ping loop has no positivity check and a JavaScript timer
with a non-positive delay fires immediately. -/
theorem heartbeatClaimRefuted : ¬ heartbeatDisabledWhenNonPositive := by
  intro h
  have h1 := h 0 le_rfl (fun _ => ReadyState.opened) 1
  simp [pingCount, pingTrace] at h1

/-- C6 amended: heartbeat probes are sent only while the transport is open,
and once it leaves the open state the ping loop stops re-arming, so no
further probes follow; the configured interval only sets the timer delay
(clamped at zero) and a non-positive interval does not disable probing. -/
theorem heartbeatOnlyWhileOpen (interval : Int) (readyAt : Nat → ReadyState)
    (n : Nat) :
    (pingCount interval readyAt (n + 1) ≠ pingCount interval readyAt n →
      readyAt n = ReadyState.opened ∧ (pingTrace readyAt n).1 = true) ∧
    ((pingTrace readyAt n).1 = false →
      (pingTrace readyAt (n + 1)).1 = false ∧
      pingCount interval readyAt (n + 1) = pingCount interval readyAt n) ∧
    (readyAt n ≠ ReadyState.opened → (pingTrace readyAt (n + 1)).1 = false) ∧
    setTimeoutFireDelay interval = interval.toNat := by
  refine ⟨?_, ?_, ?_, rfl⟩
  · intro hne
    by_cases ha : (pingTrace readyAt n).1 <;>
      by_cases hr : readyAt n = ReadyState.opened
    · exact ⟨hr, ha⟩
    · exact absurd (by simp [pingCount, pingTrace, ha, hr]) hne
    · exact absurd (by simp [pingCount, pingTrace, ha]) hne
    · exact absurd (by simp [pingCount, pingTrace, ha]) hne
  · intro ha
    constructor <;> simp [pingCount, pingTrace, ha]
  · intro hr
    by_cases ha : (pingTrace readyAt n).1 <;> simp [pingTrace, ha, hr]

/-- Witness for C6 amended: with the socket open only at the first fire, the
loop is disarmed from the second fire on and the probe count stays frozen. -/
theorem heartbeatOnlyWhileOpenInstance :
    (pingTrace (fun k => if k = 0 then ReadyState.opened else ReadyState.closed) 2).1
      = false ∧
    pingCount 50000 (fun k => if k = 0 then ReadyState.opened else ReadyState.closed) 3
      = pingCount 50000 (fun k => if k = 0 then ReadyState.opened else ReadyState.closed) 2 := by
  have h1 := (heartbeatOnlyWhileOpen 50000
      (fun k => if k = 0 then ReadyState.opened else ReadyState.closed) 1).2.2.1
      (by decide)
  have h2 := (heartbeatOnlyWhileOpen 50000
      (fun k => if k = 0 then ReadyState.opened else ReadyState.closed) 2).2.1 h1
  exact ⟨h1, h2.2⟩

end Websocketification
